import Mathlib

/-!
Verification development for the capability-calling conversation engine in
src/chatgpt/chatgpt.py.  The Python classes FunctionParameterProperties,
FunctionParameters, Function and ChatGPT are embedded as Lean structures; the
dict payloads they build are embedded as structures with the same fields; the
request/response loop of ChatGPT._get_responses_from_openai is embedded as a
recursive function driven by an oracle listing the successive responses of the
external completion service (per the service interface, each response exposes
an assistant-role message).  The raw JSON argument payload of a function call
is embedded as a value that either decodes to a structured argument set
(json.loads succeeds) or fails to decode (json.loads raises).  Exceptions are
embedded as Except values; the object state mutated across appends is passed
explicitly.
-/

namespace Chatgpt

/-- A structured argument set: the dictionary produced by a successful
json.loads of the arguments payload, keys mapped to (opaque) textual values. -/
abbrev ArgSet := List (String × String)

/-- The raw arguments payload carried by a function call, as handed to
json.loads in ChatGPT._process_function_call: it either decodes to an
argument set or raises a decode error. -/
inductive RawArgs where
  | decodable (args : ArgSet)
  | undecodable
deriving Repr, DecidableEq

/-- The function_call field of an assistant message: capability name plus raw
arguments payload. -/
structure FunctionCall where
  name : String
  arguments : RawArgs
deriving Repr, DecidableEq

/-- One transcript entry, mirroring the message dicts of chatgpt.py: role,
content, an optional name (set on function-role messages) and an optional
function_call (set on assistant messages that request an invocation). -/
structure Message where
  role : String
  content : String
  name : Option String := none
  function_call : Option FunctionCall := none
deriving Repr, DecidableEq

/-- FunctionParameterProperties (chatgpt.py lines 14-42). -/
structure FunctionParameterProperties where
  name : String
  type : String
  description : String
  required : Bool
deriving Repr, DecidableEq

/-- The dict built by FunctionParameterProperties.json (lines 31-37). -/
structure ParamSchema where
  type : String
  description : String
deriving Repr, DecidableEq

def FunctionParameterProperties.json (x : FunctionParameterProperties) : ParamSchema :=
  { type := x.type, description := x.description }

/-- FunctionParameters (lines 45-65): type is always the literal "object". -/
structure FunctionParameters where
  type : String
  properties : List FunctionParameterProperties
deriving Repr, DecidableEq

/-- FunctionParameters.__init__ (lines 54-56). -/
def mkFunctionParameters (properties : List FunctionParameterProperties) : FunctionParameters :=
  { type := "object", properties := properties }

/-- The dict built by FunctionParameters.json (lines 58-65): the properties
dict comprehension is kept as an association list in insertion order, and the
required list comprehension filters in list order. -/
structure ParamsSchema where
  type : String
  properties : List (String × ParamSchema)
  required : List String
deriving Repr, DecidableEq

def FunctionParameters.json (p : FunctionParameters) : ParamsSchema :=
  { type := p.type
    properties := p.properties.map (fun x => (x.name, x.json))
    required := (p.properties.filter (fun x => x.required)).map (fun x => x.name) }

/-- Function (lines 68-92).  The bound executable func is an arbitrary
callable: it is embedded as a function from an argument set to Except, the
error case covering any exception the Python call fn.func(**fn_args) raises
(including Python's own TypeError when the supplied keys do not bind to the
callable's signature).  The successful value stands for str(fn_response). -/
structure Function where
  name : String
  description : String
  parameters : FunctionParameters
  func : ArgSet → Except String String

/-- Function.__init__ (lines 79-83): wraps the parameter list. -/
def mkFunction (name description : String) (parameters : List FunctionParameterProperties)
    (func : ArgSet → Except String String) : Function :=
  { name := name, description := description
    parameters := mkFunctionParameters parameters, func := func }

/-- The dict built by Function.json (lines 85-92). -/
structure FunctionSchema where
  name : String
  description : String
  parameters : ParamsSchema
deriving Repr, DecidableEq

def Function.json (f : Function) : FunctionSchema :=
  { name := f.name, description := f.description, parameters := f.parameters.json }

/-- The distinct ValueError sites of construction (lines 95-160). -/
inductive InitErr where
  | credentialsMissing
  | bothMessagesAndSystemPrompt
  | noFunctionsProvided
  | forcedFunctionNotFound
deriving Repr, DecidableEq

/-- The ChatGPT engine state (lines 108-134): the owned transcript is the
messages field. -/
structure ChatGPT where
  model : String
  functions : Option (List Function)
  messages : List Message
  temperature : Option Rat
  call_fn_on_every_user_message : Option String

/-- ChatGPT._initialize_messages (lines 144-160).  Note the Python guard is
the truthiness test `if system_prompt`, so an empty-string prompt yields an
empty transcript, exactly like a missing prompt. -/
def _initialize_messages (messages : Option (List Message)) (system_prompt : Option String) :
    Except InitErr (List Message) :=
  match messages with
  | none =>
    .ok (match system_prompt with
         | some p => if p = "" then [] else [{ role := "system", content := p }]
         | none => [])
  | some ms =>
    match system_prompt with
    | none => .ok ms
    | some _ => .error .bothMessagesAndSystemPrompt

/-- ChatGPT.__init__ (lines 120-142).  The ambient credential openai.api_key
read by _validate_openai_credentials (lines 95-105) is passed explicitly as
the api_key input; the check runs first, then message initialization, then
the forced-capability checks, in source order. -/
def mkChatGPT (api_key : Option String) (model : String) (functions : Option (List Function))
    (messages : Option (List Message)) (system_prompt : Option String)
    (temperature : Option Rat) (call_fn_on_every_user_message : Option String) :
    Except InitErr ChatGPT :=
  match api_key with
  | none => .error .credentialsMissing
  | some _ =>
    match _initialize_messages messages system_prompt with
    | .error e => .error e
    | .ok msgs =>
      let gpt : ChatGPT :=
        { model := model, functions := functions, messages := msgs
          temperature := temperature
          call_fn_on_every_user_message := call_fn_on_every_user_message }
      match call_fn_on_every_user_message with
      | none => .ok gpt
      | some fname =>
        match functions with
        | none => .error .noFunctionsProvided
        | some fns =>
          if fname ∈ fns.map Function.name then .ok gpt
          else .error .forcedFunctionNotFound

/-- The request payload dict assembled by ChatGPT.json (lines 162-176) and
later possibly extended with the forced-call directive (line 196): the
function_call field holds the name inside the directive, none meaning the key
is absent. -/
structure Payload where
  model : String
  messages : List Message
  functions : Option (List FunctionSchema)
  temperature : Option Rat
  function_call : Option String
deriving Repr, DecidableEq

/-- ChatGPT.json (lines 162-176): no function_call key is present yet. -/
def ChatGPT.json (gpt : ChatGPT) : Payload :=
  { model := gpt.model
    messages := gpt.messages
    functions := gpt.functions.map (fun fs => fs.map Function.json)
    temperature := gpt.temperature
    function_call := none }

/-- The test call_kwargs["messages"][-1]["role"] == "user" (line 194).  The
source indexes the last entry directly (an empty transcript would raise), but
the loop only builds payloads after the user message was appended, so the
list is never empty there; the none branch is unreachable from the loop. -/
def lastRoleIsUser (ms : List Message) : Bool :=
  match ms.getLast? with
  | some m => m.role == "user"
  | none => false

/-- Lines 193-196: deep-copy the engine dict into call_kwargs and attach the
forced-call directive when the transcript ends in a user message and a forced
capability is configured. -/
def buildCallKwargs (gpt : ChatGPT) : Payload :=
  let call_kwargs := gpt.json
  if lastRoleIsUser call_kwargs.messages then
    if gpt.call_fn_on_every_user_message.isSome then
      { call_kwargs with function_call := gpt.call_fn_on_every_user_message }
    else call_kwargs
  else call_kwargs

/-- The distinct runtime exceptions of the response loop and of dispatch
(lines 184-231).  missingFunctionCall marks the KeyError the source would hit
if _process_function_call were reached without a function_call key; the loop
never does.  completionUnavailable marks the request raising after the retry
policy is exhausted (the oracle has no further response). -/
inductive RunErr where
  | noFunctionsProvided
  | missingFunctionCall
  | malformedArguments
  | capabilityNotFound (name : String)
  | ambiguousCapability (name : String)
  | capabilityExecutionFailed (msg : String)
  | completionUnavailable
deriving Repr, DecidableEq

/-- ChatGPT._process_function_call (lines 210-231), in source order: reject a
missing registry, read the called name, json.loads the arguments (raising on
a payload that does not decode), then match the name against the registry
(no match, a unique match, several matches), call the executable and only on
its success append the function-role message to the owned transcript. -/
def _process_function_call (gpt : ChatGPT) (response_message : Message) :
    Except RunErr (ChatGPT × Message) :=
  match gpt.functions with
  | none => .error .noFunctionsProvided
  | some functions =>
    match response_message.function_call with
    | none => .error .missingFunctionCall
    | some fc =>
      match fc.arguments with
      | .undecodable => .error .malformedArguments
      | .decodable fn_args =>
        match functions.filter (fun func => func.name == fc.name) with
        | [] => .error (.capabilityNotFound fc.name)
        | [fn] =>
          match fn.func fn_args with
          | .error e => .error (.capabilityExecutionFailed e)
          | .ok fn_response =>
            let message : Message :=
              { role := "function", content := fn_response
                name := some fc.name, function_call := none }
            .ok ({ gpt with messages := gpt.messages ++ [message] }, message)
        | _ => .error (.ambiguousCapability fc.name)

/-- One response of the external completion service: per the service
interface, response.choices[0].message is an assistant-role message with a
content and an optional function_call. -/
structure ChatResponse where
  content : String
  function_call : Option FunctionCall := none
deriving Repr, DecidableEq

/-- dict(response.choices[0].message) (line 199). -/
def ChatResponse.toMessage (r : ChatResponse) : Message :=
  { role := "assistant", content := r.content, name := none
    function_call := r.function_call }

/-- The while loop of ChatGPT._get_responses_from_openai (lines 190-208),
driven by the oracle of successive service responses.  Each iteration builds
call_kwargs, sends it (recorded in the returned payload trace), appends the
response to the transcript and the emitted list, and either stops (no
function call), dispatches and recurses, or propagates the dispatch error.
An exhausted oracle models the request itself failing after retries; the
payload of that failing request is still recorded.  The engine state is
returned in every case, errors included, since the Python exception leaves
self.messages as mutated so far. -/
def responsesLoop (gpt : ChatGPT) (response_messages : List Message) :
    List ChatResponse → List Payload × ChatGPT × Except RunErr (List Message)
  | [] => ([buildCallKwargs gpt], gpt, .error .completionUnavailable)
  | r :: rest =>
    -- line 203: the break test is key presence of function_call on the
    -- response message; toMessage carries r.function_call through unchanged.
    match r.function_call with
    | none =>
      ([buildCallKwargs gpt],
       { gpt with messages := gpt.messages ++ [r.toMessage] },
       .ok (response_messages ++ [r.toMessage]))
    | some _ =>
      match _process_function_call
          { gpt with messages := gpt.messages ++ [r.toMessage] } r.toMessage with
      | .error e =>
        ([buildCallKwargs gpt],
         { gpt with messages := gpt.messages ++ [r.toMessage] },
         .error e)
      | .ok (gpt2, fnMsg) =>
        let next := responsesLoop gpt2 (response_messages ++ [r.toMessage, fnMsg]) rest
        (buildCallKwargs gpt :: next.1, next.2)

/-- The user message dict of line 186. -/
def userMessage (text : String) : Message :=
  { role := "user", content := text }

/-- ChatGPT._get_responses_from_openai (lines 184-208): append the user
message, then run the loop with an empty emitted list. -/
def _get_responses_from_openai (gpt : ChatGPT) (user_message : String)
    (oracle : List ChatResponse) :
    List Payload × ChatGPT × Except RunErr (List Message) :=
  responsesLoop { gpt with messages := gpt.messages ++ [userMessage user_message] } [] oracle

/-- ChatGPT.__call__ (lines 178-182). -/
def ChatGPT.call (gpt : ChatGPT) (user_message : String) (oracle : List ChatResponse) :
    List Payload × ChatGPT × Except RunErr (List Message) :=
  _get_responses_from_openai gpt user_message oracle

/-- Projection used to state facts about failing runs without deciding
equality of whole engine states. -/
def runError : Except RunErr α → Option RunErr
  | .error e => some e
  | .ok _ => none

/-- Boolean success test on an Except value. -/
def isOkE : Except ε α → Bool
  | .ok _ => true
  | .error _ => false

/-- The failure classes of one attempt against the external service. -/
inductive ApiErr where
  | networkError
  | rateLimited
  | invalidCredentials
  | serviceError (msg : String)
deriving Repr, DecidableEq

/-- Outcome of a single attempt. -/
inductive ApiOutcome (α : Type) where
  | ok (a : α)
  | fail (e : ApiErr)
deriving Repr, DecidableEq

/-- Result of the decorated call: either a value, or the RetryError tenacity
raises after the stop condition, wrapping the last attempt's failure. -/
inductive CallResult (α : Type) where
  | ok (a : α)
  | retryError (last : ApiErr)
deriving Repr, DecidableEq

/-- The retry loop that the tenacity decorator on _chat_completion_request
(chatgpt.py line 9) wraps around the call: no retry predicate is supplied, so
every exception is retried; stop_after_attempt bounds the total attempts.
The oracle gives the outcome of each numbered attempt; rem counts the retries
still permitted after the current attempt.  Returns the number of the last
attempt made together with the result. -/
def retryLoop (oracle : Nat → ApiOutcome α) (n : Nat) : Nat → Nat × CallResult α
  | 0 =>
    (match oracle n with
     | .ok a => (n, .ok a)
     | .fail e => (n, .retryError e))
  | rem + 1 =>
    match oracle n with
    | .ok a => (n, .ok a)
    | .fail _ => retryLoop oracle (n + 1) rem

/-- _chat_completion_request (lines 9-11): stop_after_attempt(3) permits
attempts numbered 1, 2, 3. -/
def _chat_completion_request (oracle : Nat → ApiOutcome α) : Nat × CallResult α :=
  retryLoop oracle 1 2

/-- The per-attempt upper envelope of wait_random_exponential(min=1, max=40)
(line 9): the drawn wait is uniform between 0 and this bound, the
exponential growth clamped below by min and above by max. -/
def waitUpperBound (attemptNumber : Nat) : Nat :=
  max 1 (min (2 ^ attemptNumber) 40)

/-- At most one system message, and only in first position: no entry after
the head carries the system role. -/
def systemInvariant (ms : List Message) : Prop :=
  ∀ m ∈ ms.drop 1, m.role ≠ "system"

/-- The emitted messages of one completed resolution turn: assistant
messages, each one carrying a function call followed by the function-role
message of its dispatch, terminating in an assistant message with no
function call. -/
inductive TurnShape : List Message → Prop where
  | last (m : Message) : m.role = "assistant" → m.function_call = none → TurnShape [m]
  | step (a f : Message) (rest : List Message) :
      a.role = "assistant" → a.function_call.isSome = true → f.role = "function" →
      f.function_call = none → TurnShape rest → TurnShape (a :: f :: rest)

/-- The messages appended by the completed round trips preceding a dispatch
failure: complete assistant/function pairs. -/
inductive PairsShape : List Message → Prop where
  | nil : PairsShape []
  | step (a f : Message) (rest : List Message) :
      a.role = "assistant" → a.function_call.isSome = true → f.role = "function" →
      f.function_call = none → PairsShape rest → PairsShape (a :: f :: rest)

/-- Projection: the transcript of a constructed engine, empty when the
construction failed. -/
def constructedMessages : Except InitErr ChatGPT → List Message
  | .ok gpt => gpt.messages
  | .error _ => []

/-- A permissive executable, standing for a Python callable declared with a
catch-all keyword signature: it accepts any argument set. -/
def exampleFunc : ArgSet → Except String String := fun _ => .ok "ok"

/-- Example capability named a with one required parameter named context. -/
def fnA : Function :=
  mkFunction "a" "capability a"
    [{ name := "context", type := "string", description := "the context", required := true }]
    exampleFunc

/-- A second capability that reuses the name a. -/
def fnDup : Function := mkFunction "a" "second capability named a" [] exampleFunc

/-- Example engine with the single capability a. -/
def gptA : ChatGPT :=
  { model := "m", functions := some [fnA], messages := [], temperature := none
    call_fn_on_every_user_message := none }

/-- Example engine registering two same-named capabilities. -/
def gptDup : ChatGPT :=
  { model := "m", functions := some [fnA, fnDup], messages := [], temperature := none
    call_fn_on_every_user_message := none }

/-- Example engine with capability a forced after every user message. -/
def gptForced : ChatGPT :=
  { model := "m", functions := some [fnA], messages := [], temperature := none
    call_fn_on_every_user_message := some "a" }

/-- A system message example. -/
def sysMsg : Message := { role := "system", content := "s" }

/-- Assistant message calling the unregistered name b with an undecodable
argument payload. -/
def msgBadBoth : Message :=
  { role := "assistant", content := "", function_call := some ⟨"b", .undecodable⟩ }

/-- Assistant message calling a with keys matching no declared parameter and
missing the required parameter context. -/
def msgMismatch : Message :=
  { role := "assistant", content := ""
    function_call := some ⟨"a", .decodable [("bogus", "1")]⟩ }

/-- Assistant message calling the duplicated name a. -/
def msgCallDup : Message :=
  { role := "assistant", content := "", function_call := some ⟨"a", .decodable []⟩ }

/-- Service response calling a with a decodable argument payload. -/
def respCallA : ChatResponse :=
  { content := "", function_call := some ⟨"a", .decodable [("context", "v")]⟩ }

/-- Service response carrying no function call. -/
def respPlain : ChatResponse := { content := "done" }

/-- Service response calling the unregistered name b. -/
def respBadName : ChatResponse :=
  { content := "", function_call := some ⟨"b", .decodable []⟩ }

/-- The function message produced by dispatching respCallA against fnA. -/
def fnMsgA : Message :=
  { role := "function", content := "ok", name := some "a", function_call := none }

/-- First payload of the forced-engine example run. -/
def payloadF0 : Payload := buildCallKwargs { gptForced with messages := [userMessage "hi"] }

/-- Second payload of the forced-engine example run. -/
def payloadF1 : Payload :=
  buildCallKwargs
    { gptForced with messages := [userMessage "hi", respCallA.toMessage, fnMsgA] }

/-- First payload of the plain-engine example run. -/
def payloadW : Payload := buildCallKwargs { gptA with messages := [userMessage "hi"] }

/-- A service that fails once with a rate limit, then answers. -/
def oracleFlaky : Nat → ApiOutcome Nat := fun n => if n = 1 then .fail .rateLimited else .ok 7

/-- A service that always fails with a network error. -/
def oracleDead : Nat → ApiOutcome Nat := fun _ => .fail .networkError

/-- _initialize_messages never reports the missing-credentials error: that
error is raised only by _validate_openai_credentials. -/
theorem initialize_messages_ne_credentials (messages : Option (List Message))
    (system_prompt : Option String) :
    _initialize_messages messages system_prompt ≠ .error .credentialsMissing := by
  unfold _initialize_messages
  cases messages with
  | none => simp
  | some ms => cases system_prompt <;> simp

/-- C8: the schema projection of a capability parameter list has type
"object", a properties map sending each parameter name to its type and
description pair, and a required array listing in parameter-list order
exactly the names of the parameters flagged required; in particular the
parameters context (required) and note (optional) project to the required
array containing context alone. -/
theorem schema_projection :
    (∀ props : List FunctionParameterProperties,
        (mkFunctionParameters props).json.type = "object" ∧
        (mkFunctionParameters props).json.properties =
          props.map (fun x => (x.name, x.json)) ∧
        (mkFunctionParameters props).json.required =
          (props.filter (fun x => x.required)).map (fun x => x.name)) ∧
    (mkFunctionParameters
        [{ name := "context", type := "string", description := "c", required := true },
         { name := "note", type := "string", description := "n", required := false }]).json =
      { type := "object"
        properties := [("context", { type := "string", description := "c" }),
                       ("note", { type := "string", description := "n" })]
        required := ["context"] } :=
  ⟨fun _ => ⟨rfl, rfl, rfl⟩, rfl⟩

/-- C9 counterexample: an engine constructed from a caller-supplied message
sequence containing two system messages is accepted, so a validly constructed
engine can hold more than one system message, contradicting the claimed
invariant. -/
theorem system_invariant_counterex :
    isOkE (mkChatGPT (some "k") "m" none (some [sysMsg, sysMsg]) none none none) = true ∧
    ((constructedMessages (mkChatGPT (some "k") "m" none (some [sysMsg, sysMsg]) none none none)).filter
        (fun m => m.role == "system")).length = 2 :=
  ⟨rfl, rfl⟩

/-- C9 amended: a non-empty explicit system prompt yields exactly one system
message; an empty-string prompt yields an empty transcript; a caller-supplied
prior sequence is taken verbatim and unvalidated; supplying both messages and
a system prompt is a construction error; and the at-most-one-system-message-
in-first-position invariant holds for the output whenever any caller-supplied
sequence already satisfies it. -/
theorem initialize_messages_spec :
    (∀ p : String, p ≠ "" →
        _initialize_messages none (some p) = .ok [{ role := "system", content := p }]) ∧
    (_initialize_messages none (some "") = .ok []) ∧
    (_initialize_messages none none = .ok []) ∧
    (∀ ms : List Message, _initialize_messages (some ms) none = .ok ms) ∧
    (∀ (ms : List Message) (p : String),
        _initialize_messages (some ms) (some p) = .error .bothMessagesAndSystemPrompt) ∧
    (∀ (mso : Option (List Message)) (po : Option String) (out : List Message),
        _initialize_messages mso po = .ok out →
        (∀ ms, mso = some ms → systemInvariant ms) → systemInvariant out) := by
  refine ⟨?_, rfl, rfl, fun _ => rfl, fun _ _ => rfl, ?_⟩
  · intro p hp
    simp [_initialize_messages, hp]
  · intro mso po out h hms
    cases mso with
    | some ms =>
      cases po with
      | none =>
        simp only [_initialize_messages, Except.ok.injEq] at h
        subst h
        exact hms ms rfl
      | some _ => simp [_initialize_messages] at h
    | none =>
      cases po with
      | none =>
        simp only [_initialize_messages, Except.ok.injEq] at h
        subst h
        intro m hm
        simp at hm
      | some p =>
        simp only [_initialize_messages, Except.ok.injEq] at h
        subst h
        intro m hm
        split at hm <;> simp at hm

/-- C9 witness: the amended statement evaluated at concrete inputs. -/
theorem initialize_messages_spec_witness :
    _initialize_messages none (some "s") = .ok [{ role := "system", content := "s" }] ∧
    _initialize_messages (some [userMessage "u"]) (some "s") =
      .error .bothMessagesAndSystemPrompt ∧
    systemInvariant [({ role := "system", content := "s" } : Message)] := by
  refine ⟨initialize_messages_spec.1 "s" (by decide),
          initialize_messages_spec.2.2.2.2.1 [userMessage "u"] "s",
          initialize_messages_spec.2.2.2.2.2 none (some "s")
            [{ role := "system", content := "s" }] ?_ ?_⟩
  · exact initialize_messages_spec.1 "s" (by decide)
  · intro ms h
    cases h

/-- C10: with the ambient credential unset, construction fails with the
credential error no matter which other arguments are supplied (even ones that
would trigger the both-messages-and-prompt or forced-capability errors), and
with a credential set the credential error is never raised, so the credential
check runs before all other construction validation. -/
theorem credentials_checked_first :
    (∀ (model : String) (functions : Option (List Function))
        (messages : Option (List Message)) (system_prompt : Option String)
        (temperature : Option Rat) (forced : Option String),
        mkChatGPT none model functions messages system_prompt temperature forced =
          .error .credentialsMissing) ∧
    (∀ (k model : String) (functions : Option (List Function))
        (messages : Option (List Message)) (system_prompt : Option String)
        (temperature : Option Rat) (forced : Option String),
        mkChatGPT (some k) model functions messages system_prompt temperature forced ≠
          .error .credentialsMissing) := by
  constructor
  · intro model functions messages system_prompt temperature forced
    rfl
  · intro k model functions messages system_prompt temperature forced h
    unfold mkChatGPT at h
    rcases hinit : _initialize_messages messages system_prompt with e | msgs
    · rw [hinit] at h
      simp only [Except.error.injEq] at h
      exact initialize_messages_ne_credentials messages system_prompt (by rw [hinit, h])
    · rw [hinit] at h
      cases forced with
      | none => simp at h
      | some fname =>
        cases functions with
        | none => simp at h
        | some fns =>
          simp only at h
          split at h <;> simp at h

/-- C10 witness: the credential error masks the both-arguments error, and a
set credential never yields the credential error. -/
theorem credentials_checked_first_witness :
    mkChatGPT none "m" none (some [userMessage "u"]) (some "s") none none =
      .error .credentialsMissing ∧
    mkChatGPT (some "k") "m" none none (some "s") none none ≠
      .error .credentialsMissing :=
  ⟨credentials_checked_first.1 "m" none (some [userMessage "u"]) (some "s") none none,
   credentials_checked_first.2 "k" "m" none none (some "s") none none⟩

/-- C6 counterexample: constructing an engine that registers two capabilities
both named a succeeds, so a duplicate name is not a configuration error
raised at registration or construction time. -/
theorem duplicate_registration_counterex :
    isOkE (mkChatGPT (some "k") "m" (some [fnA, fnDup]) none none none none) = true :=
  rfl

/-- C6 amended: construction performs no duplicate-name validation (any
registry list is accepted when no forced capability is configured), and the
duplicate is detected only at dispatch, when the service names the duplicated
capability: the dispatch then fails with the ambiguous-capability error. -/
theorem duplicate_detected_at_dispatch :
    (∀ (k model : String) (fns : List Function) (temperature : Option Rat),
        isOkE (mkChatGPT (some k) model (some fns) none none temperature none) = true) ∧
    (∀ (gpt : ChatGPT) (fns : List Function) (rm : Message) (n : String) (args : ArgSet),
        gpt.functions = some fns →
        rm.function_call = some ⟨n, .decodable args⟩ →
        2 ≤ (fns.filter (fun f => f.name == n)).length →
        _process_function_call gpt rm = .error (.ambiguousCapability n)) := by
  constructor
  · intro k model fns temperature
    rfl
  · intro gpt fns rm n args hfns hfc hlen
    unfold _process_function_call
    rw [hfns, hfc]
    rcases hm : fns.filter (fun f => f.name == n) with _ | ⟨x, _ | ⟨y, t⟩⟩
    · rw [hm] at hlen; simp at hlen
    · rw [hm] at hlen; simp at hlen
    · simp [hm]

/-- C6 witness: the amended statement evaluated on a registry holding fnA and
fnDup, both named a. -/
theorem duplicate_detected_at_dispatch_witness :
    isOkE (mkChatGPT (some "k") "m" (some [fnA, fnDup]) none none none none) = true ∧
    _process_function_call gptDup msgCallDup = .error (.ambiguousCapability "a") :=
  ⟨duplicate_detected_at_dispatch.1 "k" "m" [fnA, fnDup] none,
   duplicate_detected_at_dispatch.2 gptDup [fnA, fnDup] msgCallDup "a" [] rfl rfl (by decide)⟩

/-- C3 counterexample: with capability a registered, a response calling the
unregistered name b with an undecodable payload fails with the
malformed-arguments error, not the capability-not-found error that a
lookup-first dispatch would raise; and a response calling a with a decodable
payload whose keys match no declared parameter (and miss the required one)
dispatches successfully, so no engine-level malformed-arguments check of the
keys against the descriptor exists. -/
theorem dispatch_parse_before_lookup_counterex :
    runError (_process_function_call gptA msgBadBoth) = some .malformedArguments ∧
    runError (_process_function_call gptA msgBadBoth) ≠
      some (RunErr.capabilityNotFound "b") ∧
    isOkE (_process_function_call gptA msgMismatch) = true :=
  ⟨rfl, by decide, rfl⟩

/-- C3 amended: dispatch first parses the argument payload, failing with the
malformed-arguments error whenever the payload does not decode, regardless of
whether the named capability is registered; only then does it look up the
name, failing with capability-not-found when absent; and on a unique match it
invokes the executable on the decoded argument set without validating its
keys against the declared parameter names, the outcome being exactly the
executable's own. -/
theorem dispatch_order_spec :
    (∀ (gpt : ChatGPT) (fns : List Function) (rm : Message) (n : String),
        gpt.functions = some fns →
        rm.function_call = some ⟨n, .undecodable⟩ →
        _process_function_call gpt rm = .error .malformedArguments) ∧
    (∀ (gpt : ChatGPT) (fns : List Function) (rm : Message) (n : String) (args : ArgSet),
        gpt.functions = some fns →
        rm.function_call = some ⟨n, .decodable args⟩ →
        fns.filter (fun f => f.name == n) = [] →
        _process_function_call gpt rm = .error (.capabilityNotFound n)) ∧
    (∀ (gpt : ChatGPT) (fns : List Function) (rm : Message) (n : String) (args : ArgSet)
        (fn : Function),
        gpt.functions = some fns →
        rm.function_call = some ⟨n, .decodable args⟩ →
        fns.filter (fun f => f.name == n) = [fn] →
        _process_function_call gpt rm =
          (match fn.func args with
           | .ok s =>
             .ok ({ gpt with messages := gpt.messages ++
                     [{ role := "function", content := s, name := some n,
                        function_call := none }] },
                  { role := "function", content := s, name := some n,
                    function_call := none })
           | .error e => .error (.capabilityExecutionFailed e))) := by
  refine ⟨?_, ?_, ?_⟩
  · intro gpt fns rm n hfns hfc
    unfold _process_function_call
    rw [hfns, hfc]
  · intro gpt fns rm n args hfns hfc hm
    unfold _process_function_call
    rw [hfns, hfc]
    simp [hm]
  · intro gpt fns rm n args fn hfns hfc hm
    unfold _process_function_call
    rw [hfns, hfc]
    simp only [hm]
    cases fn.func args <;> rfl

/-- C3 witness: the amended statement evaluated on the concrete engine gptA:
an undecodable payload naming b is a malformed-arguments failure, and a
decodable payload with undeclared keys dispatches through the executable. -/
theorem dispatch_order_spec_witness :
    _process_function_call gptA msgBadBoth = .error .malformedArguments ∧
    _process_function_call gptA msgMismatch =
      .ok ({ gptA with messages := gptA.messages ++ [fnMsgA] }, fnMsgA) := by
  constructor
  · exact dispatch_order_spec.1 gptA [fnA] msgBadBoth "b" rfl rfl
  · have h := dispatch_order_spec.2.2 gptA [fnA] msgMismatch "a" [("bogus", "1")] fnA
      rfl rfl rfl
    exact h

/-- C4 counterexample: a service failing every attempt with invalid
credentials is retried like any other failure: the client makes three
attempts, not one, before surfacing the retry-exhaustion error wrapping the
credential failure, so non-retryable failures are not surfaced immediately. -/
theorem retry_nonretryable_counterex :
    _chat_completion_request (fun _ => (ApiOutcome.fail .invalidCredentials : ApiOutcome Nat)) =
      (3, CallResult.retryError .invalidCredentials) ∧
    (_chat_completion_request
        (fun _ => (ApiOutcome.fail .invalidCredentials : ApiOutcome Nat))).1 ≠ 1 :=
  ⟨rfl, by decide⟩

/-- C4 amended: the completion client retries every failing request alike
(there is no non-retryable class: credential failures included), making at
most 3 total attempts, with the randomized per-attempt wait drawn below an
exponential envelope clamped between 1 and 40 time-units; a success on
attempt 2 returns normally after exactly 2 attempts; and after 3 failures it
surfaces the retry-exhaustion error wrapping the last failure. -/
theorem retry_semantics :
    (∀ (α : Type) (oracle : Nat → ApiOutcome α),
        1 ≤ (_chat_completion_request oracle).1 ∧ (_chat_completion_request oracle).1 ≤ 3) ∧
    (∀ (α : Type) (oracle : Nat → ApiOutcome α) (e : ApiErr) (a : α),
        oracle 1 = .fail e → oracle 2 = .ok a →
        _chat_completion_request oracle = (2, .ok a)) ∧
    (∀ (α : Type) (oracle : Nat → ApiOutcome α) (e1 e2 e3 : ApiErr),
        oracle 1 = .fail e1 → oracle 2 = .fail e2 → oracle 3 = .fail e3 →
        _chat_completion_request oracle = (3, .retryError e3)) ∧
    (∀ n : Nat, 1 ≤ waitUpperBound n ∧ waitUpperBound n ≤ 40) := by
  refine ⟨?_, ?_, ?_, ?_⟩
  · intro α oracle
    unfold _chat_completion_request retryLoop
    cases h1 : oracle 1 <;> simp [h1]
    unfold retryLoop
    cases h2 : oracle 2 <;> simp [h2]
    unfold retryLoop
    cases h3 : oracle 3 <;> simp [h3]
  · intro α oracle e a h1 h2
    unfold _chat_completion_request retryLoop
    rw [h1]
    unfold retryLoop
    rw [h2]
  · intro α oracle e1 e2 e3 h1 h2 h3
    unfold _chat_completion_request retryLoop
    rw [h1]
    unfold retryLoop
    rw [h2]
    unfold retryLoop
    rw [h3]
  · intro n
    exact ⟨le_max_left _ _, max_le (by norm_num) (min_le_right _ _)⟩

/-- C4 witness: the amended statement on concrete services: one transient
failure then success returns after 2 attempts; persistent failure exhausts
3 attempts and surfaces the wrapped last error. -/
theorem retry_semantics_witness :
    _chat_completion_request oracleFlaky = (2, CallResult.ok 7) ∧
    _chat_completion_request oracleDead = (3, CallResult.retryError .networkError) :=
  ⟨retry_semantics.2.1 Nat oracleFlaky .rateLimited 7 rfl rfl,
   retry_semantics.2.2.1 Nat oracleDead .networkError .networkError .networkError rfl rfl rfl⟩

/-- Appending one message makes it the entry inspected by the last-role test. -/
theorem lastRoleIsUser_concat (ms : List Message) (m : Message) :
    lastRoleIsUser (ms ++ [m]) = (m.role == "user") := by
  simp [lastRoleIsUser, List.getLast?_concat]

/-- Attaching (or not attaching) the forced-call directive never alters the
messages of the payload: the directive lives in its own field. -/
theorem buildCallKwargs_messages (gpt : ChatGPT) :
    (buildCallKwargs gpt).messages = gpt.messages := by
  simp only [buildCallKwargs, ChatGPT.json]
  split
  · split <;> rfl
  · rfl

/-- The payload carries the forced-call directive exactly when the transcript
ends in a user message; its value is then the configured forced name. -/
theorem buildCallKwargs_function_call (gpt : ChatGPT) :
    (buildCallKwargs gpt).function_call =
      (if lastRoleIsUser gpt.messages then gpt.call_fn_on_every_user_message else none) := by
  simp only [buildCallKwargs, ChatGPT.json]
  cases hl : lastRoleIsUser gpt.messages with
  | false => simp [hl]
  | true =>
    cases hf : gpt.call_fn_on_every_user_message with
    | none => simp [hl, hf]
    | some fname => simp [hl, hf]

/-- What a successful dispatch does to the engine: every field except the
transcript is untouched, the transcript gains exactly the returned
function-role message, appended last, and that message carries no function
call of its own. -/
theorem process_ok_spec (gpt : ChatGPT) (rm : Message) (gpt2 : ChatGPT) (fnMsg : Message)
    (h : _process_function_call gpt rm = .ok (gpt2, fnMsg)) :
    gpt2.model = gpt.model ∧ gpt2.functions = gpt.functions ∧
    gpt2.temperature = gpt.temperature ∧
    gpt2.call_fn_on_every_user_message = gpt.call_fn_on_every_user_message ∧
    gpt2.messages = gpt.messages ++ [fnMsg] ∧
    fnMsg.role = "function" ∧ fnMsg.function_call = none := by
  simp only [_process_function_call] at h
  split at h
  · cases h
  · split at h
    · cases h
    · split at h
      · cases h
      · split at h
        · cases h
        · split at h
          · cases h
          · simp only [Except.ok.injEq, Prod.mk.injEq] at h
            obtain ⟨h1, h2⟩ := h
            subst h1
            subst h2
            exact ⟨rfl, rfl, rfl, rfl, rfl, rfl, rfl⟩
        · cases h

/-- A resolution turn is never empty. -/
theorem turnShape_ne_nil {l : List Message} (h : TurnShape l) : l ≠ [] := by
  cases h <;> simp

/-- Every function-role message of a completed turn carries no function call
field of its own. -/
theorem turnShape_function_none {l : List Message} (h : TurnShape l) :
    ∀ m ∈ l, m.role = "function" → m.function_call = none := by
  induction h with
  | last m hr hf =>
    intro x hx hxr
    simp only [List.mem_singleton] at hx
    subst hx
    rw [hr] at hxr
    exact absurd hxr (by decide)
  | step a f rest hr hs hfr hfn hrest ih =>
    intro x hx hxr
    simp only [List.mem_cons] at hx
    rcases hx with hx | hx | hx
    · subst hx
      rw [hr] at hxr
      exact absurd hxr (by decide)
    · subst hx
      exact hfn
    · exact ih x hx hxr

/-- The final entry of a completed turn is the terminating assistant message
with no function call. -/
theorem turnShape_getLast {l : List Message} (h : TurnShape l) :
    ∃ m, l.getLast? = some m ∧ m.role = "assistant" ∧ m.function_call = none := by
  induction h with
  | last m hr hf => exact ⟨m, rfl, hr, hf⟩
  | step a f rest hr hs hfr hfn hrest ih =>
    obtain ⟨m, hm, h1, h2⟩ := ih
    refine ⟨m, ?_, h1, h2⟩
    have hne : rest ≠ [] := turnShape_ne_nil hrest
    rcases rest with _ | ⟨x, t⟩
    · exact absurd rfl hne
    · rw [List.getLast?_cons_cons, List.getLast?_cons_cons]
      exact hm

/-- The loop, when it returns normally, extends the transcript by exactly the
messages it emits beyond the accumulator, and those messages form a
completed turn. -/
theorem responsesLoop_ok_spec (oracle : List ChatResponse) :
    ∀ (gpt : ChatGPT) (acc : List Message) (out : List Message),
      (responsesLoop gpt acc oracle).2.2 = .ok out →
      ∃ emitted, out = acc ++ emitted ∧
        (responsesLoop gpt acc oracle).2.1.messages = gpt.messages ++ emitted ∧
        TurnShape emitted := by
  induction oracle with
  | nil =>
    intro gpt acc out h
    simp [responsesLoop] at h
  | cons r rest ih =>
    intro gpt acc out h
    simp only [responsesLoop] at h ⊢
    cases hfc : r.function_call with
    | none =>
      simp only [hfc, Except.ok.injEq] at h ⊢
      refine ⟨[r.toMessage], h.symm, rfl, ?_⟩
      exact TurnShape.last _ rfl hfc
    | some fc =>
      simp only [hfc] at h ⊢
      cases hp : _process_function_call
          { gpt with messages := gpt.messages ++ [r.toMessage] } r.toMessage with
      | error e =>
        simp only [hp] at h
        cases h
      | ok pair =>
        obtain ⟨gpt2, fnMsg⟩ := pair
        simp only [hp] at h ⊢
        obtain ⟨em, h1, h2, h3⟩ := ih gpt2 (acc ++ [r.toMessage, fnMsg]) out h
        obtain ⟨_, _, _, _, hmsgs, hrole, hfn⟩ := process_ok_spec _ _ _ _ hp
        refine ⟨r.toMessage :: fnMsg :: em, ?_, ?_, ?_⟩
        · rw [h1]; simp
        · rw [h2, hmsgs]; simp
        · exact TurnShape.step _ _ _ rfl (by simp [ChatResponse.toMessage, hfc]) hrole hfn h3

/-- The loop, when it raises past the completion-unavailable case, leaves the
transcript holding the completed dispatch pairs followed by the assistant
response whose function call failed, and nothing of the failed dispatch. -/
theorem responsesLoop_error_spec (oracle : List ChatResponse) :
    ∀ (gpt : ChatGPT) (acc : List Message) (e : RunErr),
      (responsesLoop gpt acc oracle).2.2 = .error e →
      e = .completionUnavailable ∨
      ∃ pre fail,
        (responsesLoop gpt acc oracle).2.1.messages = gpt.messages ++ pre ++ [fail] ∧
        PairsShape pre ∧ fail.role = "assistant" ∧ fail.function_call.isSome = true := by
  induction oracle with
  | nil =>
    intro gpt acc e h
    simp only [responsesLoop, Except.error.injEq] at h
    exact Or.inl h.symm
  | cons r rest ih =>
    intro gpt acc e h
    simp only [responsesLoop] at h ⊢
    cases hfc : r.function_call with
    | none =>
      simp only [hfc] at h
      cases h
    | some fc =>
      simp only [hfc] at h ⊢
      cases hp : _process_function_call
          { gpt with messages := gpt.messages ++ [r.toMessage] } r.toMessage with
      | error e0 =>
        simp only [hp, Except.error.injEq] at h ⊢
        refine Or.inr ⟨[], r.toMessage, by simp, PairsShape.nil, rfl, ?_⟩
        simp [ChatResponse.toMessage, hfc]
      | ok pair =>
        obtain ⟨gpt2, fnMsg⟩ := pair
        simp only [hp] at h ⊢
        rcases ih gpt2 (acc ++ [r.toMessage, fnMsg]) e h with hl | hr
        · exact Or.inl hl
        · obtain ⟨pre, fail, hmsg, hps, hrole, hsome⟩ := hr
          obtain ⟨_, _, _, _, hmsgs, hfrole, hffn⟩ := process_ok_spec _ _ _ _ hp
          refine Or.inr ⟨r.toMessage :: fnMsg :: pre, fail, ?_, ?_, hrole, hsome⟩
          · rw [hmsg, hmsgs]; simp
          · exact PairsShape.step _ _ _ rfl (by simp [ChatResponse.toMessage, hfc]) hfrole hffn hps

/-- Every run of the loop issues at least one request, whose payload is built
from the state at entry. -/
theorem responsesLoop_head_payload (oracle : List ChatResponse) (gpt : ChatGPT)
    (acc : List Message) :
    (responsesLoop gpt acc oracle).1.head? = some (buildCallKwargs gpt) := by
  cases oracle with
  | nil => simp [responsesLoop]
  | cons r rest =>
    cases hfc : r.function_call with
    | none => simp [responsesLoop, hfc]
    | some fc =>
      cases hp : _process_function_call
          { gpt with messages := gpt.messages ++ [r.toMessage] } r.toMessage with
      | error e => simp [responsesLoop, hfc, hp]
      | ok pair => simp [responsesLoop, hfc, hp]

/-- Entered on a transcript ending in a function-role message, the loop only
ever sends payloads with no forced-call directive, each snapshot still ending
in a function-role message. -/
theorem responsesLoop_payloads_after_function (oracle : List ChatResponse) :
    ∀ (gpt : ChatGPT) (acc : List Message) (m0 : Message),
      gpt.messages.getLast? = some m0 → m0.role = "function" →
      ∀ p ∈ (responsesLoop gpt acc oracle).1,
        p.function_call = none ∧
        ∃ m, p.messages.getLast? = some m ∧ m.role = "function" := by
  induction oracle with
  | nil =>
    intro gpt acc m0 hlast hrole p hp
    simp only [responsesLoop, List.mem_singleton] at hp
    subst hp
    constructor
    · rw [buildCallKwargs_function_call]
      have : lastRoleIsUser gpt.messages = false := by
        simp [lastRoleIsUser, hlast, hrole]
      simp [this]
    · exact ⟨m0, by rw [buildCallKwargs_messages]; exact hlast, hrole⟩
  | cons r rest ih =>
    intro gpt acc m0 hlast hrole p hp
    have hhead : p = buildCallKwargs gpt →
        p.function_call = none ∧
        ∃ m, p.messages.getLast? = some m ∧ m.role = "function" := by
      intro hpq
      subst hpq
      constructor
      · rw [buildCallKwargs_function_call]
        have : lastRoleIsUser gpt.messages = false := by
          simp [lastRoleIsUser, hlast, hrole]
        simp [this]
      · exact ⟨m0, by rw [buildCallKwargs_messages]; exact hlast, hrole⟩
    simp only [responsesLoop] at hp
    cases hfc : r.function_call with
    | none =>
      simp only [hfc, List.mem_singleton] at hp
      exact hhead hp
    | some fc =>
      simp only [hfc] at hp
      cases hp2 : _process_function_call
          { gpt with messages := gpt.messages ++ [r.toMessage] } r.toMessage with
      | error e =>
        simp only [hp2, List.mem_singleton] at hp
        exact hhead hp
      | ok pair =>
        obtain ⟨gpt2, fnMsg⟩ := pair
        simp only [hp2, List.mem_cons] at hp
        rcases hp with hp | hp
        · exact hhead hp
        · obtain ⟨_, _, _, _, hmsgs, hfrole, _⟩ := process_ok_spec _ _ _ _ hp2
          refine ih gpt2 (acc ++ [r.toMessage, fnMsg]) fnMsg ?_ hfrole p hp
          rw [hmsgs]
          exact List.getLast?_concat _

/-- Every payload after the first is sent with the transcript ending in a
function-role message and carries no forced-call directive. -/
theorem responsesLoop_trace_tail (oracle : List ChatResponse) (gpt : ChatGPT)
    (acc : List Message) :
    ∀ p ∈ (responsesLoop gpt acc oracle).1.drop 1,
      p.function_call = none ∧
      ∃ m, p.messages.getLast? = some m ∧ m.role = "function" := by
  cases oracle with
  | nil =>
    intro p hp
    simp [responsesLoop] at hp
  | cons r rest =>
    intro p hp
    simp only [responsesLoop] at hp
    cases hfc : r.function_call with
    | none => simp [hfc] at hp
    | some fc =>
      simp only [hfc] at hp
      cases hp2 : _process_function_call
          { gpt with messages := gpt.messages ++ [r.toMessage] } r.toMessage with
      | error e => simp [hp2] at hp
      | ok pair =>
        obtain ⟨gpt2, fnMsg⟩ := pair
        simp only [hp2, List.drop_succ_cons, List.drop_zero] at hp
        obtain ⟨_, _, _, _, hmsgs, hfrole, _⟩ := process_ok_spec _ _ _ _ hp2
        exact responsesLoop_payloads_after_function rest gpt2
          (acc ++ [r.toMessage, fnMsg]) fnMsg (by rw [hmsgs]; exact List.getLast?_concat _)
          hfrole p hp

/-- The final transcript of a run extends the transcript at entry. -/
theorem responsesLoop_messages_extend (oracle : List ChatResponse) :
    ∀ (gpt : ChatGPT) (acc : List Message),
      ∃ t, (responsesLoop gpt acc oracle).2.1.messages = gpt.messages ++ t := by
  induction oracle with
  | nil =>
    intro gpt acc
    exact ⟨[], by simp [responsesLoop]⟩
  | cons r rest ih =>
    intro gpt acc
    cases hfc : r.function_call with
    | none => exact ⟨[r.toMessage], by simp [responsesLoop, hfc]⟩
    | some fc =>
      cases hp : _process_function_call
          { gpt with messages := gpt.messages ++ [r.toMessage] } r.toMessage with
      | error e => exact ⟨[r.toMessage], by simp [responsesLoop, hfc, hp]⟩
      | ok pair =>
        obtain ⟨gpt2, fnMsg⟩ := pair
        obtain ⟨t, ht⟩ := ih gpt2 (acc ++ [r.toMessage, fnMsg])
        obtain ⟨_, _, _, _, hmsgs, _, _⟩ := process_ok_spec _ _ _ _ hp
        refine ⟨[r.toMessage, fnMsg] ++ t, ?_⟩
        simp only [responsesLoop, hfc, hp]
        rw [ht, hmsgs]
        simp

/-- Every payload snapshot sent during a run is a prefix of the transcript the
run leaves behind: the engine only ever appends past what was sent. -/
theorem responsesLoop_trace_snapshots (oracle : List ChatResponse) :
    ∀ (gpt : ChatGPT) (acc : List Message),
      ∀ p ∈ (responsesLoop gpt acc oracle).1,
        ∃ t, (responsesLoop gpt acc oracle).2.1.messages = p.messages ++ t := by
  induction oracle with
  | nil =>
    intro gpt acc p hp
    simp only [responsesLoop, List.mem_singleton] at hp
    subst hp
    exact ⟨[], by simp [responsesLoop, buildCallKwargs_messages]⟩
  | cons r rest ih =>
    intro gpt acc p hp
    simp only [responsesLoop] at hp ⊢
    cases hfc : r.function_call with
    | none =>
      simp only [hfc, List.mem_singleton] at hp
      subst hp
      simp only [hfc]
      exact ⟨[r.toMessage], by rw [buildCallKwargs_messages]⟩
    | some fc =>
      simp only [hfc] at hp ⊢
      cases hp2 : _process_function_call
          { gpt with messages := gpt.messages ++ [r.toMessage] } r.toMessage with
      | error e =>
        simp only [hp2, List.mem_singleton] at hp
        subst hp
        simp only [hp2]
        exact ⟨[r.toMessage], by rw [buildCallKwargs_messages]⟩
      | ok pair =>
        obtain ⟨gpt2, fnMsg⟩ := pair
        simp only [hp2, List.mem_cons] at hp
        simp only [hp2]
        obtain ⟨_, _, _, _, hmsgs, _, _⟩ := process_ok_spec _ _ _ _ hp2
        rcases hp with hp | hp
        · subst hp
          obtain ⟨t, ht⟩ := responsesLoop_messages_extend rest gpt2 (acc ++ [r.toMessage, fnMsg])
          refine ⟨[r.toMessage, fnMsg] ++ t, ?_⟩
          rw [ht, hmsgs, buildCallKwargs_messages]
          simp
        · exact ih gpt2 (acc ++ [r.toMessage, fnMsg]) p hp

/-- C1: when a submitted turn resolves normally, the transcript afterwards is
the prior transcript, then the user message, then exactly the emitted
sequence: alternating assistant messages each followed, when it carries a
function call, by the function-role message of its dispatch, terminating in
an assistant message with no function call, which is also the final entry of
the returned sequence. -/
theorem submit_transcript_shape (gpt : ChatGPT) (text : String) (oracle : List ChatResponse)
    (out : List Message) (h : (ChatGPT.call gpt text oracle).2.2 = .ok out) :
    (ChatGPT.call gpt text oracle).2.1.messages =
      gpt.messages ++ [userMessage text] ++ out ∧
    TurnShape out ∧
    (∃ m, out.getLast? = some m ∧ m.role = "assistant" ∧ m.function_call = none) := by
  have h' : (responsesLoop { gpt with messages := gpt.messages ++ [userMessage text] }
      [] oracle).2.2 = Except.ok out := h
  obtain ⟨emitted, h1, h2, h3⟩ := responsesLoop_ok_spec oracle _ [] out h'
  simp only [List.nil_append] at h1
  subst h1
  refine ⟨?_, h3, turnShape_getLast h3⟩
  show (responsesLoop { gpt with messages := gpt.messages ++ [userMessage text] }
      [] oracle).2.1.messages = gpt.messages ++ [userMessage text] ++ out
  rw [h2]

/-- C1 witness: a concrete run through one function call and one plain
answer. -/
theorem submit_transcript_shape_witness :
    (ChatGPT.call gptA "hi" [respCallA, respPlain]).2.1.messages =
      gptA.messages ++ [userMessage "hi"] ++ [respCallA.toMessage, fnMsgA, respPlain.toMessage] ∧
    TurnShape [respCallA.toMessage, fnMsgA, respPlain.toMessage] ∧
    (∃ m, [respCallA.toMessage, fnMsgA, respPlain.toMessage].getLast? = some m ∧
      m.role = "assistant" ∧ m.function_call = none) :=
  submit_transcript_shape gptA "hi" [respCallA, respPlain]
    [respCallA.toMessage, fnMsgA, respPlain.toMessage] rfl

/-- C2: within one submitted turn, the first request payload (the one built
right after the user message was appended, whose snapshot ends in exactly
that user message) carries the forced-call directive precisely when a forced
capability is configured, naming it; every later payload of the turn is
built after a function-result append, its snapshot ends in a function-role
message, and it carries no directive. -/
theorem submit_forced_directive (gpt : ChatGPT) (text : String) (oracle : List ChatResponse) :
    (∀ p ∈ (ChatGPT.call gpt text oracle).1.take 1,
        p.function_call = gpt.call_fn_on_every_user_message ∧
        p.messages = gpt.messages ++ [userMessage text] ∧
        p.messages.getLast? = some (userMessage text)) ∧
    (∀ p ∈ (ChatGPT.call gpt text oracle).1.drop 1,
        p.function_call = none ∧
        ∃ m, p.messages.getLast? = some m ∧ m.role = "function") := by
  constructor
  · intro p hp
    have hh : (ChatGPT.call gpt text oracle).1.head? =
        some (buildCallKwargs { gpt with messages := gpt.messages ++ [userMessage text] }) :=
      responsesLoop_head_payload oracle _ []
    rcases htr : (ChatGPT.call gpt text oracle).1 with _ | ⟨q, t⟩
    · rw [htr] at hp
      simp at hp
    · rw [htr] at hp hh
      simp only [List.head?_cons, Option.some.injEq] at hh
      simp only [List.take_succ_cons, List.take_zero, List.mem_singleton] at hp
      subst hp
      subst hh
      refine ⟨?_, ?_, ?_⟩
      · rw [buildCallKwargs_function_call]
        have : lastRoleIsUser ({ gpt with messages := gpt.messages ++ [userMessage text] } :
            ChatGPT).messages = true := by
          show lastRoleIsUser (gpt.messages ++ [userMessage text]) = true
          rw [lastRoleIsUser_concat]
          rfl
        rw [this]
        simp
      · rw [buildCallKwargs_messages]
      · rw [buildCallKwargs_messages]
        exact List.getLast?_concat _
  · intro p hp
    exact responsesLoop_trace_tail oracle _ [] p hp

/-- C2 witness: in the forced-engine example run, the first payload carries
the directive naming a and ends in the fresh user message; the second payload
carries none and its snapshot ends in the function-result message. -/
theorem submit_forced_directive_witness :
    (payloadF0.function_call = gptForced.call_fn_on_every_user_message ∧
     payloadF0.messages = gptForced.messages ++ [userMessage "hi"] ∧
     payloadF0.messages.getLast? = some (userMessage "hi")) ∧
    (payloadF1.function_call = none ∧
     ∃ m, payloadF1.messages.getLast? = some m ∧ m.role = "function") := by
  constructor
  · exact (submit_forced_directive gptForced "hi" [respCallA, respPlain]).1 payloadF0 (by decide)
  · exact (submit_forced_directive gptForced "hi" [respCallA, respPlain]).2 payloadF1 (by decide)

/-- C5: the request payload is built from the state without mutating it —
attaching the forced-call directive changes only the payload's own directive
field, never the messages; every payload snapshot sent during a turn is a
prefix of the transcript the turn leaves, so the transcript evolves only by
the explicit appends; and no function-role entry ever carries a
function-call field, the directive living only in the payload. -/
theorem payload_isolation (gpt : ChatGPT) (text : String) (oracle : List ChatResponse) :
    ((buildCallKwargs gpt).messages = gpt.messages) ∧
    (∀ p ∈ (ChatGPT.call gpt text oracle).1,
        ∃ t, (ChatGPT.call gpt text oracle).2.1.messages = p.messages ++ t) ∧
    (∀ out, (ChatGPT.call gpt text oracle).2.2 = .ok out →
        ∀ m ∈ out, m.role = "function" → m.function_call = none) := by
  refine ⟨buildCallKwargs_messages gpt, ?_, ?_⟩
  · intro p hp
    exact responsesLoop_trace_snapshots oracle _ [] p hp
  · intro out hout m hm hrole
    have h' : (responsesLoop { gpt with messages := gpt.messages ++ [userMessage text] }
        [] oracle).2.2 = Except.ok out := hout
    obtain ⟨emitted, h1, _, h3⟩ := responsesLoop_ok_spec oracle _ [] out h'
    simp only [List.nil_append] at h1
    subst h1
    exact turnShape_function_none h3 m hm hrole

/-- C5 witness: in the plain-engine example run, the first payload's snapshot
is a prefix of the final transcript, and the emitted function message carries
no function-call field. -/
theorem payload_isolation_witness :
    (buildCallKwargs gptA).messages = gptA.messages ∧
    (∃ t, (ChatGPT.call gptA "hi" [respCallA, respPlain]).2.1.messages =
        payloadW.messages ++ t) ∧
    fnMsgA.function_call = none := by
  refine ⟨(payload_isolation gptA "hi" [respCallA, respPlain]).1, ?_, ?_⟩
  · exact (payload_isolation gptA "hi" [respCallA, respPlain]).2.1 payloadW (by decide)
  · exact (payload_isolation gptA "hi" [respCallA, respPlain]).2.2
      [respCallA.toMessage, fnMsgA, respPlain.toMessage] rfl fnMsgA (by decide) rfl

/-- C7 counterexample: dispatching the unregistered name b raises the
capability-not-found error, and the transcript then holds more than the
entries appended before the failing response: the failing assistant response
itself has already been appended and is retained. -/
theorem dispatch_failure_transcript_counterex :
    runError (ChatGPT.call gptA "hi" [respBadName]).2.2 =
      some (RunErr.capabilityNotFound "b") ∧
    (ChatGPT.call gptA "hi" [respBadName]).2.1.messages ≠ [userMessage "hi"] ∧
    (ChatGPT.call gptA "hi" [respBadName]).2.1.messages =
      [userMessage "hi", respBadName.toMessage] :=
  ⟨rfl, by decide, rfl⟩

/-- C7 amended: when dispatch fails (unregistered or ambiguous name,
undecodable arguments, missing registry, or the executable raising), no
function-role message is appended for the failed dispatch, the error aborts
the submit call, and the transcript holds exactly the entries appended before
the failing response — the prior transcript, the user message and the
completed assistant/function pairs — followed by the failing assistant
response itself, which is retained as its append precedes the dispatch. -/
theorem dispatch_failure_frame (gpt : ChatGPT) (text : String) (oracle : List ChatResponse)
    (e : RunErr) (h : runError (ChatGPT.call gpt text oracle).2.2 = some e)
    (hne : e ≠ RunErr.completionUnavailable) :
    ∃ pre fail,
      (ChatGPT.call gpt text oracle).2.1.messages =
        gpt.messages ++ [userMessage text] ++ pre ++ [fail] ∧
      PairsShape pre ∧ fail.role = "assistant" ∧ fail.function_call.isSome = true := by
  rcases hx : (ChatGPT.call gpt text oracle).2.2 with e0 | outv
  · rw [hx] at h
    simp only [runError, Option.some.injEq] at h
    subst h
    have h' : (responsesLoop { gpt with messages := gpt.messages ++ [userMessage text] }
        [] oracle).2.2 = Except.error e0 := hx
    rcases responsesLoop_error_spec oracle _ [] e0 h' with hl | hr
    · exact absurd hl hne
    · obtain ⟨pre, fail, hmsg, hps, hrole, hsome⟩ := hr
      refine ⟨pre, fail, ?_, hps, hrole, hsome⟩
      show (responsesLoop { gpt with messages := gpt.messages ++ [userMessage text] }
          [] oracle).2.1.messages = gpt.messages ++ [userMessage text] ++ pre ++ [fail]
      rw [hmsg]
  · rw [hx] at h
    simp [runError] at h

/-- C7 witness: the ambiguous-name failure on the duplicate registry leaves
the transcript holding the user message then the failing assistant
response. -/
theorem dispatch_failure_frame_witness :
    ∃ pre fail,
      (ChatGPT.call gptDup "hi" [respCallA]).2.1.messages =
        gptDup.messages ++ [userMessage "hi"] ++ pre ++ [fail] ∧
      PairsShape pre ∧ fail.role = "assistant" ∧ fail.function_call.isSome = true :=
  dispatch_failure_frame gptDup "hi" [respCallA] (RunErr.ambiguousCapability "a")
    rfl (by decide)

end Chatgpt
